import Mathlib

/-!
Verification of the security-report pipeline (`utils/data_processor.py`,
`app.py`, `backend/app/services/report_service.py`,
`backend/app/api/routers/reports.py`) against its specification.

The Python code is shallowly embedded: dataframes become typed lists of
records, Python `dict`s of metric values become association lists, Python
floats become exact fractions, exceptions become `Except`, and the
in-place mutations performed by the code are made explicit by returning
the new state of the mutated object.
-/

set_option maxRecDepth 4096
set_option maxHeartbeats 1000000
set_option linter.unusedVariables false

namespace ExecSummary

/-! ## Calendar dates

`datetime` values are modelled as (year, month, day) triples.  Python's
`datetime` comparisons are lexicographic on these fields; `timedelta(days=n)`
subtraction is modelled as `n`-fold previous-day stepping, which agrees with
exact day arithmetic on valid dates. -/

structure Date where
  year : Int
  month : Nat
  day : Nat
deriving DecidableEq, Repr

def isLeapYear (y : Int) : Bool :=
  y % 4 == 0 && (y % 100 != 0 || y % 400 == 0)

def daysInMonth (y : Int) (m : Nat) : Nat :=
  if m = 2 then (if isLeapYear y then 29 else 28)
  else if m = 4 ∨ m = 6 ∨ m = 9 ∨ m = 11 then 30
  else 31

def validDate (d : Date) : Prop :=
  1 ≤ d.month ∧ d.month ≤ 12 ∧ 1 ≤ d.day ∧ d.day ≤ daysInMonth d.year d.month

instance (d : Date) : Decidable (validDate d) := by
  unfold validDate
  infer_instance

/-- Lexicographic order on dates, matching `datetime.__le__`. -/
def dateLe (a b : Date) : Prop :=
  a.year < b.year ∨
    (a.year = b.year ∧
      (a.month < b.month ∨ (a.month = b.month ∧ a.day ≤ b.day)))

/-- Strict lexicographic order on dates, matching `datetime.__lt__`. -/
def dateLt (a b : Date) : Prop :=
  a.year < b.year ∨
    (a.year = b.year ∧
      (a.month < b.month ∨ (a.month = b.month ∧ a.day < b.day)))

instance (a b : Date) : Decidable (dateLe a b) := by
  unfold dateLe
  infer_instance

instance (a b : Date) : Decidable (dateLt a b) := by
  unfold dateLt
  infer_instance

/-- One day earlier; agrees with `d - timedelta(days=1)` on valid dates. -/
def prevDay (d : Date) : Date :=
  if 1 < d.day then ⟨d.year, d.month, d.day - 1⟩
  else if 1 < d.month then ⟨d.year, d.month - 1, daysInMonth d.year (d.month - 1)⟩
  else ⟨d.year - 1, 12, 31⟩

/-- `n` days earlier; agrees with `d - timedelta(days=n)` on valid dates. -/
def subDays (d : Date) : Nat → Date
  | 0 => d
  | n + 1 => prevDay (subDays d n)

/-! ## Period resolver (`DataProcessor.get_date_range_from_period`)

The source reads `datetime.now()`; it is passed here as the explicit
argument `today`.  The source formats both dates with `strftime("%Y-%m-%d")`
before returning; the dates themselves are returned here (for four-digit
years the string comparison agrees with `dateLe`). -/

/-- ASCII lower-casing of a string (`str.lower()`; all the tokens the code
compares against are ASCII). -/
def strLower (s : String) : String :=
  ⟨s.data.map Char.toLower⟩

/-- `current_quarter = (today.month - 1) // 3 + 1` from the source; the
local variables `current_quarter` and `quarter_start_month` are inlined. -/
def get_date_range_from_period (period : String) (today : Date) : Date × Date :=
  if strLower period = "last_quarter" then
    if (today.month - 1) / 3 + 1 = 1 then
      (⟨today.year - 1, 10, 1⟩, ⟨today.year - 1, 12, 31⟩)
    else if (today.month - 1) / 3 + 1 = 2 then
      (⟨today.year, ((today.month - 1) / 3 + 1 - 2) * 3 + 1, 1⟩,
        ⟨today.year, 3, 31⟩)
    else if (today.month - 1) / 3 + 1 = 3 then
      (⟨today.year, ((today.month - 1) / 3 + 1 - 2) * 3 + 1, 1⟩,
        ⟨today.year, 6, 30⟩)
    else
      (⟨today.year, ((today.month - 1) / 3 + 1 - 2) * 3 + 1, 1⟩,
        ⟨today.year, 9, 30⟩)
  else if strLower period = "last_month" then
    if today.month = 1 then
      (⟨today.year - 1, 12, 1⟩, ⟨today.year - 1, 12, 31⟩)
    else
      (⟨today.year, today.month - 1, 1⟩, subDays ⟨today.year, today.month, 1⟩ 1)
  else if strLower period = "last_6_months" then
    (subDays today 180, today)
  else if strLower period = "ytd" ∨ strLower period = "year_to_date" then
    (⟨today.year, 1, 1⟩, today)
  else
    (subDays today 90, today)

/-! ## Datasets

The three CSV-backed dataframes become typed lists of records; every row
type has a `date` field, so `filter_by_date_range`'s "no date column"
branch does not arise for them. -/

/-- Python float values, modelled as exact (not necessarily reduced)
fractions with the usual field arithmetic.  The claims under proof do not
depend on binary floating-point rounding. -/
structure PyFloat where
  num : Int
  den : Nat
deriving DecidableEq, Repr

def PyFloat.ofInt (n : Int) : PyFloat :=
  ⟨n, 1⟩

def PyFloat.add (a b : PyFloat) : PyFloat :=
  ⟨a.num * b.den + b.num * a.den, a.den * b.den⟩

def PyFloat.mul (a b : PyFloat) : PyFloat :=
  ⟨a.num * b.num, a.den * b.den⟩

def PyFloat.div (a b : PyFloat) : PyFloat :=
  if b.num < 0 then ⟨-(a.num * b.den), a.den * b.num.natAbs⟩
  else ⟨a.num * b.den, a.den * b.num.natAbs⟩

structure EventRow where
  date : Date
  event_type : String
  severity : String
  status : String
  source : String
  target : String
  impact_score : PyFloat
deriving DecidableEq, Repr

structure PhishRow where
  date : Date
  campaign_type : String
  success_rate : PyFloat
  blocked_count : Int
  clicked_count : Int
  reported_count : Int
  threat_level : String
deriving DecidableEq, Repr

structure CompRow where
  date : Date
  framework : String
  control_id : String
  status : String
  compliance_score : PyFloat
  risk_level : String
deriving DecidableEq, Repr

/-- Does `l` start with `pat`? -/
def startsWithChars : List Char → List Char → Bool
  | _, [] => true
  | [], _ :: _ => false
  | c :: cs, p :: ps => c == p && startsWithChars cs ps

/-- Does `pat` occur as a contiguous sublist of `l`? -/
def subChars (pat : List Char) : List Char → Bool
  | [] => pat.isEmpty
  | c :: t => startsWithChars (c :: t) pat || subChars pat t

/-- Python's `pat in s` substring test. -/
def containsSub (s pat : String) : Bool :=
  subChars pat.data s.data

/-- `df.filter` row count, used for the pandas boolean-mask row counts. -/
def countB (l : List α) (p : α → Bool) : Nat :=
  (l.filter p).length

/-- `DataProcessor.filter_by_date_range`: inclusive date-range mask. -/
def filterByDateRange (date : α → Date) (df : List α) (s e : Date) : List α :=
  df.filter fun r => decide (dateLe s (date r)) && decide (dateLe (date r) e)

/-! ## Focus-area filter (`DataProcessor.get_security_events_data`) -/

/-- The `if "phishing" in area.lower(): ... elif ...` chain: the keyword
predicate contributed by one focus-area tag, if any.  `str.contains(kw,
case=False, na=False)` is a case-insensitive substring test. -/
def areaPred (area : String) : Option (EventRow → Bool) :=
  if containsSub (strLower area) "phishing" then
    some fun r => containsSub (strLower r.event_type) "phishing"
  else if containsSub (strLower area) "malware" then
    some fun r => containsSub (strLower r.event_type) "malware"
  else if containsSub (strLower area) "endpoint" then
    some fun r => containsSub (strLower r.target) "endpoint"
  else if containsSub (strLower area) "network" then
    some fun r => containsSub (strLower r.source) "network"
  else
    none

/-- The focus-area step of `get_security_events_data`: OR-combine the
contributed predicates; if no tag contributes one (including the empty
tag list), the dataframe passes through unfiltered. -/
def focusFilter (fas : List String) (df : List EventRow) : List EventRow :=
  if (fas.filterMap areaPred).isEmpty then df
  else df.filter fun r => (fas.filterMap areaPred).any fun p => p r

/-- `DataProcessor.get_security_events_data` (the `report_type` parameter
is accepted and ignored, as in the source). -/
def get_security_events_data (rawEvents : List EventRow)
    (report_type period : String) (focus_areas : List String) (today : Date) :
    List EventRow :=
  let r := get_date_range_from_period period today
  focusFilter focus_areas (filterByDateRange EventRow.date rawEvents r.1 r.2)

/-- `DataProcessor.get_phishing_data`. -/
def get_phishing_data (rawPhishing : List PhishRow) (period : String)
    (today : Date) : List PhishRow :=
  let r := get_date_range_from_period period today
  filterByDateRange PhishRow.date rawPhishing r.1 r.2

/-- `DataProcessor.get_compliance_data`. -/
def get_compliance_data (rawCompliance : List CompRow) (period : String)
    (today : Date) : List CompRow :=
  let r := get_date_range_from_period period today
  filterByDateRange CompRow.date rawCompliance r.1 r.2

/-- A phishing-type and a malware-type security event, used to compare the
focus filter on the tag sets `["phishing"]` and `["phishing", "malware"]`. -/
def evPhish : EventRow :=
  ⟨⟨2025, 1, 10⟩, "Phishing Email", "High", "Resolved", "Email Gateway",
    "User Workstation", ⟨5, 1⟩⟩

def evMalware : EventRow :=
  ⟨⟨2025, 1, 11⟩, "Malware Detection", "Critical", "Open", "Network IDS",
    "Endpoint Device", ⟨7, 1⟩⟩

/-! ## Metric calculators

The calculators return Python dicts; they are modelled as association
lists over a value type `MVal` that distinguishes Python ints, floats
(modelled as rationals), name→count dicts (`value_counts().to_dict()`)
and string lists, because the code's chart logic later renders the whole
dict with `str(...)`. -/

inductive MVal where
  | int (n : Int)
  | float (f : PyFloat)
  | dictSI (l : List (String × Int))
  | listS (l : List String)
deriving DecidableEq, Repr

def pySum (l : List PyFloat) : PyFloat :=
  l.foldr PyFloat.add ⟨0, 1⟩

/-- `Series.mean()` (callers only apply it to non-empty lists). -/
def pyMean (l : List PyFloat) : PyFloat :=
  (pySum l).div ⟨l.length, 1⟩

def intSum (l : List Int) : Int :=
  l.foldr (· + ·) 0

/-- Distinct values in order of first appearance (`Series.unique()`). -/
def dedupAux (seen : List String) : List String → List String
  | [] => []
  | x :: t => if seen.contains x then dedupAux seen t else x :: dedupAux (x :: seen) t

def distinctInOrder (l : List String) : List String :=
  dedupAux [] l

/-- `Series.value_counts().head(5).to_dict()`: counts of each distinct
value, sorted by count descending (stable), first five kept. -/
def valueCountsTop5 (l : List String) : List (String × Int) :=
  (List.insertionSort (fun a b : String × Int => b.2 < a.2)
      ((distinctInOrder l).map fun v => (v, (countB l (fun y => y == v) : Int)))).take 5

/-- `DataProcessor.calculate_security_metrics`. -/
def calculate_security_metrics (df : List EventRow) : List (String × MVal) :=
  if df.isEmpty then
    [("total_events", .int 0), ("critical_events", .int 0),
     ("high_events", .int 0), ("resolved_events", .int 0),
     ("avg_impact_score", .int 0), ("top_event_types", .listS []),
     ("resolution_rate", .int 0)]
  else
    [("total_events", .int df.length),
     ("critical_events", .int (countB df fun r => r.severity == "Critical")),
     ("high_events", .int (countB df fun r => r.severity == "High")),
     ("resolved_events", .int (countB df fun r => r.status == "Resolved")),
     ("avg_impact_score", .float (pyMean (df.map (·.impact_score)))),
     ("top_event_types", .dictSI (valueCountsTop5 (df.map (·.event_type)))),
     ("resolution_rate",
       .float ((PyFloat.div ⟨(countB df fun r => r.status == "Resolved" : Nat), 1⟩
         ⟨(df.length : Nat), 1⟩).mul ⟨100, 1⟩))]

/-- `DataProcessor.calculate_phishing_metrics`. -/
def calculate_phishing_metrics (df : List PhishRow) : List (String × MVal) :=
  if df.isEmpty then
    [("total_campaigns", .int 0), ("avg_success_rate", .int 0),
     ("total_blocked", .int 0), ("total_clicked", .int 0),
     ("total_reported", .int 0), ("high_risk_campaigns", .int 0)]
  else
    [("total_campaigns", .int df.length),
     ("avg_success_rate", .float ((pyMean (df.map (·.success_rate))).mul ⟨100, 1⟩)),
     ("total_blocked", .int (intSum (df.map (·.blocked_count)))),
     ("total_clicked", .int (intSum (df.map (·.clicked_count)))),
     ("total_reported", .int (intSum (df.map (·.reported_count)))),
     ("high_risk_campaigns",
       .int (countB df fun r => r.threat_level == "High" || r.threat_level == "Critical"))]

/-- `compliance_df.sort_values("date")`, with the stable ascending order
the spec fixes for the tie-breaking rule. -/
def sortByDate (df : List CompRow) : List CompRow :=
  List.insertionSort (fun a b => dateLt a.date b.date) df

/-- `.groupby(["framework", "control_id"]).tail(1)`: from the date-sorted
rows, keep each row whose `(framework, control_id)` key does not reappear
later, i.e. the last occurrence per key. -/
def keepLastByKey : List CompRow → List CompRow
  | [] => []
  | r :: t =>
      if t.any fun x => x.framework == r.framework && x.control_id == r.control_id then
        keepLastByKey t
      else
        r :: keepLastByKey t

def latest_assessments (df : List CompRow) : List CompRow :=
  keepLastByKey (sortByDate df)

/-- `DataProcessor.calculate_compliance_metrics`. -/
def calculate_compliance_metrics (df : List CompRow) : List (String × MVal) :=
  if df.isEmpty then
    [("total_controls", .int 0), ("compliant_controls", .int 0),
     ("compliance_rate", .int 0), ("avg_compliance_score", .int 0),
     ("frameworks", .listS []), ("non_compliant_controls", .int 0)]
  else
    [("total_controls", .int (latest_assessments df).length),
     ("compliant_controls",
       .int (countB (latest_assessments df) fun r => r.status == "Compliant")),
     ("compliance_rate",
       .float ((PyFloat.div
         ⟨(countB (latest_assessments df) fun r => r.status == "Compliant" : Nat), 1⟩
         ⟨((latest_assessments df).length : Nat), 1⟩).mul ⟨100, 1⟩)),
     ("avg_compliance_score",
       .float (pyMean ((latest_assessments df).map (·.compliance_score)))),
     ("frameworks", .listS (distinctInOrder ((latest_assessments df).map (·.framework)))),
     ("non_compliant_controls",
       .int (countB (latest_assessments df) fun r => r.status == "Non-Compliant"))]

def compA1 : CompRow :=
  ⟨⟨2025, 1, 5⟩, "SOC2", "CC1.1", "Non-Compliant", ⟨60, 1⟩, "High"⟩

def compA2 : CompRow :=
  ⟨⟨2025, 2, 5⟩, "SOC2", "CC1.1", "Compliant", ⟨95, 1⟩, "Low"⟩

/-! ## `str(metrics)` rendering

`generate_charts` tests `"Phishing Statistics" in str(metrics)`, so the
Python `str()` rendering of the metrics dict-of-dicts is embedded.
Strings are rendered with single quotes as `repr` does for quote-free
strings; floats are rendered as their exact decimal expansion, which
matches Python's shortest-round-trip float repr for the short decimal
values arising here (a `num/den` fallback stands in for non-terminating
expansions, whose exact float repr is outside this model). -/

def padZeros (s : String) (k : Nat) : String :=
  ⟨List.replicate (k - s.data.length) '0' ++ s.data⟩

def floatStr (f : PyFloat) : String :=
  let sign := if f.num < 0 then "-" else ""
  let a := f.num.natAbs
  let d := f.den
  match (List.range 18).find? (fun k => (a * 10 ^ k) % d == 0) with
  | some k =>
      let m := a * 10 ^ k / d
      let ip := m / 10 ^ k
      let fp := m % 10 ^ k
      if k == 0 then sign ++ toString ip ++ ".0"
      else sign ++ toString ip ++ "." ++ padZeros (toString fp) k
  | none => sign ++ toString a ++ "/" ++ toString d

def quoteStr (s : String) : String :=
  "\x27" ++ s ++ "\x27"

def joinComma : List String → String
  | [] => ""
  | [x] => x
  | x :: y :: t => x ++ ", " ++ joinComma (y :: t)

def strMVal : MVal → String
  | .int n => toString n
  | .float f => floatStr f
  | .dictSI l =>
      "\x7b" ++ joinComma (l.map fun kv => quoteStr kv.1 ++ ": " ++ toString kv.2) ++
        "\x7d"
  | .listS l => "[" ++ joinComma (l.map quoteStr) ++ "]"

def strMetricsDict (l : List (String × MVal)) : String :=
  "\x7b" ++ joinComma (l.map fun kv => quoteStr kv.1 ++ ": " ++ strMVal kv.2) ++
    "\x7d"

/-- The `all_metrics` dict built by `generate_report_data`. -/
structure Metrics where
  security_metrics : List (String × MVal)
  phishing_metrics : List (String × MVal)
  compliance_metrics : List (String × MVal)
deriving DecidableEq, Repr

def all_metrics (events : List EventRow) (phishing : List PhishRow)
    (compliance : List CompRow) : Metrics :=
  ⟨calculate_security_metrics events, calculate_phishing_metrics phishing,
   calculate_compliance_metrics compliance⟩

/-- `str(metrics)` for the `all_metrics` dict. -/
def strMetrics (m : Metrics) : String :=
  "\x7b" ++ quoteStr "security_metrics" ++ ": " ++
      strMetricsDict m.security_metrics ++
    ", " ++ quoteStr "phishing_metrics" ++ ": " ++
      strMetricsDict m.phishing_metrics ++
    ", " ++ quoteStr "compliance_metrics" ++ ": " ++
      strMetricsDict m.compliance_metrics ++ "\x7d"

/-! ## Chart assembly (`generate_charts` in `app.py` /
`report_service.py`)

Chart builders live on the injected `chart_generator` object; they are
modelled as `Except`-valued functions (`.error` = the builder raised).
The whole assembly sits in ONE `try`: each entry is appended in a fixed
order; the `except` clause appends a single "Chart Generation Error"
entry to whatever was built so far and returns it, so later entries are
not attempted. -/

structure Chart where
  title : String
  html : String
  explanation : String
deriving DecidableEq, Repr

structure ChartGen where
  create_security_events_overview : List EventRow → Except String String
  create_events_timeline : List EventRow → Except String String
  create_phishing_analysis : List PhishRow → Except String String
  create_compliance_dashboard : List CompRow → Except String String
  create_kpi_cards : Metrics → Except String String
  create_trend_analysis : List EventRow → Except String String

structure Step where
  cond : Bool
  title : String
  builder : Except String String
  explanation : String

def errChart (e : String) : Chart :=
  ⟨"Chart Generation Error", "<p>Error generating charts: " ++ e ++ "</p>",
   "There was an error generating the visualizations."⟩

def assemble : List Step → List Chart → List Chart
  | [], acc => acc
  | s :: rest, acc =>
      if s.cond then
        match s.builder with
        | .ok h => assemble rest (acc ++ [⟨s.title, h, s.explanation⟩])
        | .error e => acc ++ [errChart e]
      else
        assemble rest acc

def chartSteps (g : ChartGen) (events : List EventRow)
    (phishing : List PhishRow) (compliance : List CompRow)
    (metrics : Metrics) (report_type : String) : List Step :=
  [⟨!events.isEmpty, "Security Events Overview",
      g.create_security_events_overview events,
      "This chart shows the distribution of security events by type and severity level."⟩,
   ⟨!events.isEmpty, "Security Events Timeline",
      g.create_events_timeline events,
      "Timeline showing security events over the reporting period, categorized by severity."⟩,
   ⟨!phishing.isEmpty &&
        (containsSub (strLower report_type) "phishing" ||
          containsSub (strMetrics metrics) "Phishing Statistics"),
      "Phishing Campaign Analysis",
      g.create_phishing_analysis phishing,
      "Comprehensive analysis of phishing campaigns including success rates and trends."⟩,
   ⟨!compliance.isEmpty &&
        (containsSub (strLower report_type) "compliance" ||
          decide (0 < compliance.length)),
      "Compliance Status Dashboard",
      g.create_compliance_dashboard compliance,
      "Current compliance status across different frameworks and controls."⟩,
   ⟨true, "Key Performance Indicators",
      g.create_kpi_cards metrics,
      "Key security metrics and performance indicators for the reporting period."⟩,
   ⟨!events.isEmpty, "Security Trends Analysis",
      g.create_trend_analysis events,
      "Trend analysis showing security event patterns and impact scores over time."⟩]

def generate_charts (g : ChartGen) (events : List EventRow)
    (phishing : List PhishRow) (compliance : List CompRow)
    (metrics : Metrics) (report_type : String) : List Chart :=
  assemble (chartSteps g events phishing compliance metrics report_type) []

/-- The dataset-to-charts slice of `generate_report_data`: load (the raw
datasets are parameters), date-filter, focus-filter, compute the three
metric records, and build the chart list.  Note `focus_areas` reaches
only the events filter: `generate_charts` never sees it. -/
def generate_report_charts (rawEvents : List EventRow)
    (rawPhishing : List PhishRow) (rawCompliance : List CompRow)
    (report_type time_period : String) (focus_areas : List String)
    (today : Date) (g : ChartGen) : List Chart :=
  let events := get_security_events_data rawEvents report_type time_period
    focus_areas today
  let phishing := get_phishing_data rawPhishing time_period today
  let compliance := get_compliance_data rawCompliance time_period today
  generate_charts g events phishing compliance
    (all_metrics events phishing compliance) report_type

def okHtml : Except String String :=
  .ok "<div>ok</div>"

/-- A chart generator whose builders all succeed. -/
def gOk : ChartGen :=
  ⟨fun _ => okHtml, fun _ => okHtml, fun _ => okHtml, fun _ => okHtml,
   fun _ => okHtml, fun _ => okHtml⟩

/-- A chart generator whose security-events-overview builder raises. -/
def gFailOverview : ChartGen :=
  { gOk with create_security_events_overview := fun _ => .error "boom" }

/-- The phishing campaign used for the C1 failing input. -/
def c1PhishRow : PhishRow :=
  ⟨⟨2025, 2, 1⟩, "Credential Harvest", ⟨1, 4⟩, 120, 5, 30, "High"⟩

def c1Today : Date :=
  ⟨2025, 3, 15⟩

/-! ## The generate-report HTTP handler
(`backend/app/api/routers/reports.py`, `backend/main.py`)

Exceptions are values of `PyExc`; `fastapi.HTTPException` is one of its
constructors and — crucially — a subclass of `Exception`, so the
handler's `except Exception` clause catches it.  Everything the handler
does after validation (report generation, rendering, PDF, email) is a
single injected fallible computation `pipeline`. -/

inductive PyExc where
  | httpException (code : Nat) (detail : String)
  | other (msg : String)
deriving DecidableEq, Repr

structure ReportRequest where
  recipient_email : String
  report_type : String
  time_period : String
  focus_areas : List String
  specific_questions : String
deriving DecidableEq, Repr

structure ReportResponse where
  status : String
  message : String
  report_id : Option String
deriving DecidableEq, Repr

/-- Python truthiness of a string (`all([...])` over the three required
fields tests that each is non-empty). -/
def pyTruthy (s : String) : Bool :=
  !(s == "")

/-- The body of the handler's `try:` block.  The `Bool` records whether
the pipeline (`generate_report_data` and everything after it) was
invoked. -/
def generate_report_tryBlock
    (pipeline : ReportRequest → Except PyExc ReportResponse)
    (req : ReportRequest) : Except PyExc ReportResponse × Bool :=
  if !(pyTruthy req.recipient_email && pyTruthy req.report_type &&
        pyTruthy req.time_period) then
    (.error (.httpException 400 "Please fill in all required fields."), false)
  else
    (pipeline req, true)

/-- The whole route: any exception escaping the `try:` block — including
the `HTTPException(400)` raised by the validation — is caught by
`except Exception` and re-raised as `HTTPException(500, ...)`, which the
framework renders with status code 500.  Returns (status code, whether
the pipeline was invoked). -/
def generate_report_route
    (pipeline : ReportRequest → Except PyExc ReportResponse)
    (req : ReportRequest) : Nat × Bool :=
  match generate_report_tryBlock pipeline req with
  | (.ok _, invoked) => (200, invoked)
  | (.error _, invoked) => (500, invoked)

def reqMissingReportType : ReportRequest :=
  ⟨"analyst@example.com", "", "ytd", [], ""⟩

/-! ## Generic dataframes, the dataset loader and `get_trend_data`

For `load_data`'s caching/copying behaviour and `get_trend_data`'s
in-place column assignment, pandas dataframes are modelled generically: a
column-name list plus rows of cells.  Python object identity is made
explicit with a heap: references are indices into a list of dataframe
values, `df.copy()` allocates a fresh reference carrying the same value,
and mutating one reference cannot change another. -/

inductive Cell where
  | str (s : String)
  | num (f : PyFloat)
  | date (d : Date)
deriving DecidableEq, Repr

structure GDF where
  cols : List String
  rows : List (List Cell)
deriving DecidableEq, Repr

def splitOnChar (sep : Char) : List Char → List (List Char)
  | [] => [[]]
  | c :: t =>
      let r := splitOnChar sep t
      if c == sep then [] :: r
      else
        match r with
        | [] => [[c]]
        | h :: t2 => (c :: h) :: t2

def parseNatChars (l : List Char) : Option Nat :=
  if l.isEmpty then none
  else
    l.foldl
      (fun acc c =>
        match acc with
        | none => none
        | some n => if c.isDigit then some (n * 10 + (c.toNat - 48)) else none)
      (some 0)

/-- Parse an ISO "YYYY-MM-DD" date, the format of the CSV date columns
(`pd.to_datetime` accepts more formats; only this one occurs here). -/
def parseDate (s : String) : Option Date :=
  match splitOnChar (Char.ofNat 45) s.data with
  | [y, m, d] =>
      match parseNatChars y, parseNatChars m, parseNatChars d with
      | some y2, some m2, some d2 => some ⟨(y2 : Int), m2, d2⟩
      | _, _, _ => none
  | _ => none

def idxOfStr (name : String) : List String → Nat
  | [] => 0
  | c :: t => if c == name then 0 else idxOfStr name t + 1

def modifyAt (f : α → α) : Nat → List α → List α
  | _, [] => []
  | 0, x :: t => f x :: t
  | n + 1, x :: t => x :: modifyAt f n t

def cellParseDate (c : Cell) : Cell :=
  match c with
  | .str s =>
      match parseDate s with
      | some d => .date d
      | none => .str s
  | c => c

/-- The `pd.to_datetime` step of `load_data`: convert the "date" column,
when present, to date cells. -/
def parseDates (df : GDF) : GDF :=
  if df.cols.contains "date" then
    ⟨df.cols, df.rows.map (modifyAt cellParseDate (idxOfStr "date" df.cols))⟩
  else df

/-- The `DataProcessor` instance state: `data_cache` maps a filename to
the heap reference of its cached dataframe object. -/
structure LoaderState where
  cache : List (String × Nat)
  heap : List GDF
deriving DecidableEq, Repr

def readRef (s : LoaderState) (r : Nat) : GDF :=
  s.heap.getD r ⟨[], []⟩

def writeRef (s : LoaderState) (r : Nat) (v : GDF) : LoaderState :=
  { s with heap := s.heap.set r v }

def alloc (s : LoaderState) (v : GDF) : Nat × LoaderState :=
  (s.heap.length, { s with heap := s.heap ++ [v] })

/-- `DataProcessor.load_data`.  On a cache hit, return a fresh copy of
the cached object; on a miss, read the file (the filesystem is the
`files` parameter), parse the date column, store the object in the cache
and return a fresh copy of it; raise `FileNotFoundError` when the file
does not exist. -/
def load_data (files : String → Option GDF) (s : LoaderState)
    (filename : String) : Except String (Nat × LoaderState) :=
  match s.cache.lookup filename with
  | some rc =>
      let a := alloc s (readRef s rc)
      .ok (a.1, a.2)
  | none =>
      match files filename with
      | none => .error ("Data file not found: " ++ filename)
      | some raw =>
          let df := parseDates raw
          let a1 := alloc s df
          let s1 := { a1.2 with cache := (filename, a1.1) :: a1.2.cache }
          let a2 := alloc s1 (readRef s1 a1.1)
          .ok (a2.1, a2.2)

def c9File : GDF :=
  ⟨["date", "event_type"], [[.str "2025-01-10", .str "Phishing Email"]]⟩

/-! ## `DataProcessor.get_trend_data`

`df["month"] = df[date_column].dt.to_period("M")` assigns a column on the
caller's dataframe object in place.  The embedding returns the final
state of that object alongside the aggregation result; pandas'
two-level aggregated column labels are flattened to plain names, and
`agg` raising a `KeyError` for a missing `metric_column` becomes the
`Except.error` case. -/

def monthStr (d : Date) : String :=
  toString d.year ++ "-" ++ padZeros (toString d.month) 2

def getCell (row : List Cell) (i : Nat) : Cell :=
  row.getD i (.str "")

/-- `.dt.to_period("M")` of one date cell, as its string form (non-date
cells do not occur in a parsed date column). -/
def monthValue (c : Cell) : Cell :=
  match c with
  | .date d => .str (monthStr d)
  | _ => .str ""

def cellStr (c : Cell) : String :=
  match c with
  | .str s => s
  | _ => ""

def cellNum (c : Cell) : PyFloat :=
  match c with
  | .num f => f
  | _ => ⟨0, 1⟩

/-- Column assignment `df[name] = vals`: overwrite the column if it
exists, else append it. -/
def setColumn (df : GDF) (name : String) (vals : List Cell) : GDF :=
  if df.cols.contains name then
    ⟨df.cols,
     (df.rows.zip vals).map fun rv => rv.1.set (idxOfStr name df.cols) rv.2⟩
  else
    ⟨df.cols ++ [name], (df.rows.zip vals).map fun rv => rv.1 ++ [rv.2]⟩

/-- `df.groupby("month").agg({metric: ["count", "mean"]})`: month keys
ascending, with the group size and group mean of the metric column. -/
def trendAgg (df : GDF) (metric : String) : GDF :=
  let mi := idxOfStr "month" df.cols
  let ki := idxOfStr metric df.cols
  let keys := List.insertionSort (fun a b : String => a < b)
    (distinctInOrder (df.rows.map fun r => cellStr (getCell r mi)))
  ⟨["month", metric ++ "_count", metric ++ "_mean"],
   keys.map fun k =>
     let grp := df.rows.filter fun r => cellStr (getCell r mi) == k
     [.str k, .num ⟨(grp.length : Int), 1⟩,
      .num (pyMean (grp.map fun r => cellNum (getCell r ki)))]⟩

/-- `DataProcessor.get_trend_data`: the first component is the final
state of the CALLER's dataframe object (mutated in place by the `month`
column assignment unless the early-return guard fires). -/
def get_trend_data (df : GDF) (metric_column : String)
    (date_column : String) : GDF × Except String GDF :=
  if df.rows.isEmpty || !(df.cols.contains date_column) then
    (df, .ok ⟨[], []⟩)
  else
    let i := idxOfStr date_column df.cols
    let months := df.rows.map fun r => monthValue (getCell r i)
    let df1 := setColumn df "month" months
    if df1.cols.contains metric_column then
      (df1, .ok (trendAgg df1 metric_column))
    else
      (df1, .error ("Column(s) [" ++ metric_column ++ "] do not exist"))

def c10df : GDF :=
  ⟨["date", "impact_score"],
   [[.date ⟨2025, 1, 5⟩, .num ⟨6, 1⟩], [.date ⟨2025, 2, 7⟩, .num ⟨4, 1⟩]]⟩

theorem daysInMonth_ge (y : Int) (m : Nat) : 28 ≤ daysInMonth y m := by
  unfold daysInMonth
  split_ifs <;> omega

theorem prevDay_valid (d : Date) (h : validDate d) : validDate (prevDay d) := by
  obtain ⟨h1, h2, h3, h4⟩ := h
  have h28 := daysInMonth_ge d.year (d.month - 1)
  have hdim12 : daysInMonth (d.year - 1) 12 = 31 := by simp [daysInMonth]
  unfold prevDay validDate
  split_ifs with hd hm <;> refine ⟨?_, ?_, ?_, ?_⟩ <;> dsimp only <;> omega

theorem prevDay_le (d : Date) : dateLe (prevDay d) d := by
  unfold prevDay dateLe
  split_ifs with hd hm <;> dsimp only <;> omega

theorem dateLe_trans {a b c : Date} (h1 : dateLe a b) (h2 : dateLe b c) :
    dateLe a c := by
  unfold dateLe at *
  rcases h1 with h1 | ⟨e1, h1⟩ <;> rcases h2 with h2 | ⟨e2, h2⟩
  · left; omega
  · left; omega
  · left; omega
  · right
    constructor
    · omega
    · rcases h1 with h1 | ⟨f1, h1⟩ <;> rcases h2 with h2 | ⟨f2, h2⟩
      · left; omega
      · left; omega
      · left; omega
      · right; exact ⟨by omega, by omega⟩

theorem subDays_le (d : Date) (n : Nat) :
    dateLe (subDays d n) d := by
  induction n with
  | zero =>
    unfold dateLe
    right
    exact ⟨rfl, Or.inr ⟨rfl, le_refl _⟩⟩
  | succ n ih =>
    exact dateLe_trans (prevDay_le (subDays d n)) ih

theorem subDays_first_of_month (y : Int) (m : Nat) (hm : 1 < m) :
    subDays ⟨y, m, 1⟩ 1 = ⟨y, m - 1, daysInMonth y (m - 1)⟩ := by
  show prevDay ⟨y, m, 1⟩ = _
  unfold prevDay
  rw [if_neg (by dsimp only; omega), if_pos (by dsimp only; omega)]

/-- C5: for every period token and every valid value of "today", the
period resolver returns a pair with start ≤ end; in January "last_month"
resolves to December 1–31 of the previous year, and in Q1 "last_quarter"
resolves to October 1 – December 31 of the previous year. -/
theorem get_date_range_from_period_sound (p : String) (today : Date)
    (h : validDate today) :
    dateLe (get_date_range_from_period p today).1
      (get_date_range_from_period p today).2
    ∧ (today.month = 1 →
        get_date_range_from_period "last_month" today =
          (⟨today.year - 1, 12, 1⟩, ⟨today.year - 1, 12, 31⟩))
    ∧ (today.month ≤ 3 →
        get_date_range_from_period "last_quarter" today =
          (⟨today.year - 1, 10, 1⟩, ⟨today.year - 1, 12, 31⟩)) := by
  obtain ⟨hm1, hm12, hd1, hdm⟩ := h
  refine ⟨?_, ?_, ?_⟩
  · unfold get_date_range_from_period
    split_ifs with h1 h2 h3 h4 h5 h6 h7 h8
    · unfold dateLe; dsimp only; omega
    · unfold dateLe; dsimp only; omega
    · unfold dateLe; dsimp only; omega
    · unfold dateLe; dsimp only; omega
    · unfold dateLe; dsimp only; omega
    · have hgt : 1 < today.month := by omega
      rw [subDays_first_of_month today.year today.month hgt]
      have h28 := daysInMonth_ge today.year (today.month - 1)
      unfold dateLe; dsimp only; omega
    · dsimp only
      exact subDays_le today 180
    · unfold dateLe; dsimp only; omega
    · dsimp only
      exact subDays_le today 90
  · intro hjan
    have n1 : ¬(strLower "last_month" = "last_quarter") := by decide
    have p1 : strLower "last_month" = "last_month" := by decide
    unfold get_date_range_from_period
    rw [if_neg n1, if_pos p1, if_pos hjan]
  · intro hq1
    have p2 : strLower "last_quarter" = "last_quarter" := by decide
    have hq : (today.month - 1) / 3 + 1 = 1 := by omega
    unfold get_date_range_from_period
    rw [if_pos p2, if_pos hq]

theorem get_date_range_from_period_sound_witness :
    dateLe (get_date_range_from_period "ytd" ⟨2025, 1, 15⟩).1
      (get_date_range_from_period "ytd" ⟨2025, 1, 15⟩).2
    ∧ get_date_range_from_period "last_month" ⟨2025, 1, 15⟩ =
        (⟨2024, 12, 1⟩, ⟨2024, 12, 31⟩)
    ∧ get_date_range_from_period "last_quarter" ⟨2025, 1, 15⟩ =
        (⟨2024, 10, 1⟩, ⟨2024, 12, 31⟩) :=
  ⟨(get_date_range_from_period_sound "ytd" ⟨2025, 1, 15⟩ (by decide)).1,
   (get_date_range_from_period_sound "ytd" ⟨2025, 1, 15⟩ (by decide)).2.1 rfl,
   (get_date_range_from_period_sound "ytd" ⟨2025, 1, 15⟩ (by decide)).2.2
     (by decide)⟩

/-- C6: every token whose lower-casing is not one of the five recognized
period tokens resolves, without error, to the default rolling window
(today - 90 days, today). -/
theorem get_date_range_from_period_default (p : String) (today : Date)
    (h : strLower p ∉
      ["last_quarter", "last_month", "last_6_months", "ytd", "year_to_date"]) :
    get_date_range_from_period p today = (subDays today 90, today) := by
  simp only [List.mem_cons, List.mem_singleton, not_or] at h
  obtain ⟨n1, n2, n3, n4, n5⟩ := h
  unfold get_date_range_from_period
  rw [if_neg n1, if_neg n2, if_neg n3, if_neg (by simp [n4, n5])]

theorem get_date_range_from_period_default_witness :
    get_date_range_from_period "everything" ⟨2025, 3, 10⟩ =
      (subDays ⟨2025, 3, 10⟩ 90, ⟨2025, 3, 10⟩) :=
  get_date_range_from_period_default "everything" ⟨2025, 3, 10⟩ (by decide)

theorem length_filter_mono {α : Type} {l : List α} {p q : α → Bool}
    (h : ∀ x, p x = true → q x = true) :
    (l.filter p).length ≤ (l.filter q).length := by
  induction l with
  | nil => simp
  | cons x t ih =>
    rw [List.filter_cons, List.filter_cons]
    by_cases hp : p x = true
    · rw [if_pos hp, if_pos (h x hp)]
      simpa using ih
    · rw [if_neg hp]
      by_cases hq : q x = true
      · rw [if_pos hq]
        exact le_trans ih (by simp)
      · rw [if_neg hq]
        exact ih

/-- C3 counterexample: filtering by the superset
`["phishing", "malware"]` yields MORE rows (2) than filtering by the
subset `["phishing"]` (1), so "filtering by the larger set never yields a
greater row count than filtering by the subset" is false. -/
theorem focusFilter_superset_can_grow :
    ¬ ((focusFilter ["phishing", "malware"] [evPhish, evMalware]).length ≤
        (focusFilter ["phishing"] [evPhish, evMalware]).length) := by
  decide

/-- C3 (amended): for focus-area sets `A ⊆ B` where `A` contributes at
least one recognized predicate, filtering by the superset `B` yields at
least as many rows as filtering by `A` (OR-combination is monotone
increasing, not decreasing); the OR-combined result has at least as many
rows as each individual predicate's result and at most as many rows as
the unfiltered dataset. -/
theorem focusFilter_monotone (df : List EventRow) (A B : List String)
    (hsub : ∀ a, a ∈ A → a ∈ B) (hA : A.filterMap areaPred ≠ []) :
    (focusFilter A df).length ≤ (focusFilter B df).length
    ∧ (∀ p, p ∈ B.filterMap areaPred →
        (df.filter p).length ≤ (focusFilter B df).length)
    ∧ (focusFilter B df).length ≤ df.length := by
  have hmemAB : ∀ p, p ∈ A.filterMap areaPred → p ∈ B.filterMap areaPred := by
    intro p hp
    obtain ⟨a, ha, hap⟩ := List.mem_filterMap.mp hp
    exact List.mem_filterMap.mpr ⟨a, hsub a ha, hap⟩
  have hB : B.filterMap areaPred ≠ [] := by
    obtain ⟨p, hp⟩ := List.exists_mem_of_ne_nil _ hA
    exact List.ne_nil_of_mem (hmemAB p hp)
  have hAe : (A.filterMap areaPred).isEmpty = false := by
    simpa [List.isEmpty_iff] using hA
  have hBe : (B.filterMap areaPred).isEmpty = false := by
    simpa [List.isEmpty_iff] using hB
  refine ⟨?_, ?_, ?_⟩
  · unfold focusFilter
    rw [hAe, hBe]
    simp only [Bool.false_eq_true, if_false]
    refine length_filter_mono ?_
    intro r hr
    obtain ⟨p, hp, hpr⟩ := List.any_eq_true.mp hr
    exact List.any_eq_true.mpr ⟨p, hmemAB p hp, hpr⟩
  · intro p hp
    unfold focusFilter
    rw [hBe]
    simp only [Bool.false_eq_true, if_false]
    refine length_filter_mono ?_
    intro r hr
    exact List.any_eq_true.mpr ⟨p, hp, hr⟩
  · unfold focusFilter
    rw [hBe]
    simp only [Bool.false_eq_true, if_false]
    exact List.length_filter_le _ _

theorem focusFilter_monotone_witness :
    (focusFilter ["phishing"] [evPhish, evMalware]).length ≤
      (focusFilter ["phishing", "malware"] [evPhish, evMalware]).length :=
  (focusFilter_monotone [evPhish, evMalware] ["phishing"]
    ["phishing", "malware"] (by decide)
    (by
      intro h
      have h1 : (List.filterMap areaPred ["phishing"]).length = 1 := rfl
      rw [h] at h1
      simp at h1)).1

/-- C7: each metric calculator applied to the empty dataset raises no
error and returns its fixed fail-safe record: every count, sum, average
and rate field is zero, and the collection fields (`top_event_types`,
`frameworks`) are empty. -/
theorem metrics_empty_dataset :
    calculate_security_metrics [] =
      [("total_events", .int 0), ("critical_events", .int 0),
       ("high_events", .int 0), ("resolved_events", .int 0),
       ("avg_impact_score", .int 0), ("top_event_types", .listS []),
       ("resolution_rate", .int 0)]
    ∧ calculate_phishing_metrics [] =
      [("total_campaigns", .int 0), ("avg_success_rate", .int 0),
       ("total_blocked", .int 0), ("total_clicked", .int 0),
       ("total_reported", .int 0), ("high_risk_campaigns", .int 0)]
    ∧ calculate_compliance_metrics [] =
      [("total_controls", .int 0), ("compliant_controls", .int 0),
       ("compliance_rate", .int 0), ("avg_compliance_score", .int 0),
       ("frameworks", .listS []), ("non_compliant_controls", .int 0)] :=
  ⟨rfl, rfl, rfl⟩

/-- C8: compliance metrics are computed over the latest assessment per
`(framework, control_id)` pair: with two assessments for the same pair
and a later-dated second one, the metrics equal those computed from the
later assessment alone; and on every non-empty dataset,
`compliance_rate = compliant_controls / total_controls * 100` over the
latest-per-control reduction. -/
theorem compliance_latest_per_control (r1 r2 : CompRow)
    (hf : r1.framework = r2.framework) (hc : r1.control_id = r2.control_id)
    (hd : dateLt r1.date r2.date) :
    calculate_compliance_metrics [r1, r2] = calculate_compliance_metrics [r2]
    ∧ (∀ df : List CompRow, df ≠ [] →
        (calculate_compliance_metrics df).lookup "total_controls" =
          some (.int (latest_assessments df).length)
        ∧ (calculate_compliance_metrics df).lookup "compliant_controls" =
          some (.int (countB (latest_assessments df) fun r => r.status == "Compliant"))
        ∧ (calculate_compliance_metrics df).lookup "compliance_rate" =
          some (.float ((PyFloat.div
            ⟨(countB (latest_assessments df) fun r => r.status == "Compliant" : Nat), 1⟩
            ⟨((latest_assessments df).length : Nat), 1⟩).mul ⟨100, 1⟩))) := by
  constructor
  · have hsort : sortByDate [r1, r2] = [r1, r2] := by
      simp [sortByDate, List.insertionSort, List.orderedInsert, hd]
    have hlat12 : latest_assessments [r1, r2] = [r2] := by
      rw [latest_assessments, hsort]
      simp [keepLastByKey, hf, hc]
    have hlat2 : latest_assessments [r2] = [r2] := by
      simp [latest_assessments, sortByDate, List.insertionSort,
        List.orderedInsert, keepLastByKey]
    simp [calculate_compliance_metrics, hlat12, hlat2]
  · intro df hdf
    have he : df.isEmpty = false := by
      simpa [List.isEmpty_iff] using hdf
    refine ⟨?_, ?_, ?_⟩ <;> simp [calculate_compliance_metrics, he, List.lookup]

theorem compliance_latest_per_control_witness :
    calculate_compliance_metrics [compA1, compA2] =
      calculate_compliance_metrics [compA2]
    ∧ (calculate_compliance_metrics [compA1, compA2]).lookup "compliance_rate" =
      some (.float ((PyFloat.div
        ⟨(countB (latest_assessments [compA1, compA2]) fun r => r.status == "Compliant" : Nat), 1⟩
        ⟨((latest_assessments [compA1, compA2]).length : Nat), 1⟩).mul ⟨100, 1⟩)) :=
  ⟨(compliance_latest_per_control compA1 compA2 rfl rfl (by decide)).1,
   ((compliance_latest_per_control compA1 compA2 rfl rfl (by decide)).2
      [compA1, compA2] (by decide)).2.2⟩

theorem assemble_cases (steps : List Step) : ∀ acc : List Chart,
    (∀ s ∈ steps, s.title ≠ "Chart Generation Error") →
    ((∃ l, assemble steps acc = acc ++ l
        ∧ (∀ c ∈ l, c.title ≠ "Chart Generation Error")
        ∧ ∀ s ∈ steps, s.cond = true → s.title ∈ l.map Chart.title)
      ∨ (∃ l e, assemble steps acc = acc ++ l ++ [errChart e]
        ∧ ∀ c ∈ l, c.title ≠ "Chart Generation Error")) := by
  induction steps with
  | nil =>
    intro acc hT
    left
    exact ⟨[], by simp [assemble], by simp, by simp⟩
  | cons s rest ih =>
    intro acc hT
    have hTs : s.title ≠ "Chart Generation Error" := hT s (List.mem_cons_self _ _)
    have hTr : ∀ x ∈ rest, x.title ≠ "Chart Generation Error" :=
      fun x hx => hT x (List.mem_cons_of_mem _ hx)
    by_cases hc : s.cond = true
    · cases hb : s.builder with
      | ok h =>
        have hstep : assemble (s :: rest) acc =
            assemble rest (acc ++ [⟨s.title, h, s.explanation⟩]) := by
          conv_lhs => rw [assemble]
          rw [if_pos hc, hb]
        rcases ih (acc ++ [⟨s.title, h, s.explanation⟩]) hTr with
          ⟨l, hl, hne, hmem⟩ | ⟨l, e, hl, hne⟩
        · left
          refine ⟨⟨s.title, h, s.explanation⟩ :: l, ?_, ?_, ?_⟩
          · rw [hstep, hl]
            simp
          · intro c hcmem
            rcases List.mem_cons.mp hcmem with rfl | hcl
            · exact hTs
            · exact hne c hcl
          · intro t ht htc
            rcases List.mem_cons.mp ht with rfl | htr
            · simp
            · simp only [List.map_cons]
              exact List.mem_cons_of_mem _ (hmem t htr htc)
        · right
          refine ⟨⟨s.title, h, s.explanation⟩ :: l, e, ?_, ?_⟩
          · rw [hstep, hl]
            simp
          · intro c hcmem
            rcases List.mem_cons.mp hcmem with rfl | hcl
            · exact hTs
            · exact hne c hcl
      | error e =>
        right
        refine ⟨[], e, ?_, by simp⟩
        conv_lhs => rw [assemble]
        rw [if_pos hc, hb]
        simp
    · have hstep : assemble (s :: rest) acc = assemble rest acc := by
        conv_lhs => rw [assemble]
        rw [if_neg hc]
      rcases ih acc hTr with ⟨l, hl, hne, hmem⟩ | ⟨l, e, hl, hne⟩
      · left
        refine ⟨l, by rw [hstep, hl], hne, ?_⟩
        intro t ht htc
        rcases List.mem_cons.mp ht with rfl | htr
        · exact absurd htc hc
        · exact hmem t htr htc
      · right
        exact ⟨l, e, by rw [hstep, hl], hne⟩

/-- C4 counterexample: when the security-events-overview builder raises
on a non-empty events dataset, the returned chart list is just the single
"Chart Generation Error" entry: it does NOT contain the KPI-cards entry,
and the remaining charts are not built. -/
theorem generate_charts_failure_drops_kpi :
    "Key Performance Indicators" ∉
      (generate_charts gFailOverview [evPhish] [] [] (all_metrics [] [] [])
        "monthly_report").map Chart.title := by
  decide

/-- C4 (amended): a failure while building one chart stops the assembly:
if no "Chart Generation Error" entry is present then every chart whose
condition held — in particular the KPI-cards entry — is present; at most
one error entry ever appears; and when one appears it is the final entry,
everything after the failing chart (possibly including the KPI cards)
having been skipped. -/
theorem generate_charts_error_handling (g : ChartGen) (events : List EventRow)
    (phishing : List PhishRow) (compliance : List CompRow) (metrics : Metrics)
    (report_type : String) :
    (("Chart Generation Error" ∉
        (generate_charts g events phishing compliance metrics
          report_type).map Chart.title) →
      "Key Performance Indicators" ∈
        (generate_charts g events phishing compliance metrics
          report_type).map Chart.title)
    ∧ ((generate_charts g events phishing compliance metrics
          report_type).map Chart.title).count "Chart Generation Error" ≤ 1
    ∧ ("Chart Generation Error" ∈
        (generate_charts g events phishing compliance metrics
          report_type).map Chart.title →
      ∃ pre e, generate_charts g events phishing compliance metrics
          report_type = pre ++ [errChart e]
        ∧ ∀ c ∈ pre, c.title ≠ "Chart Generation Error") := by
  have hT : ∀ s ∈ chartSteps g events phishing compliance metrics report_type,
      s.title ≠ "Chart Generation Error" := by
    intro s hs
    simp only [chartSteps, List.mem_cons, List.not_mem_nil, or_false] at hs
    rcases hs with rfl | rfl | rfl | rfl | rfl | rfl <;> simp
  have hkpi : (⟨true, "Key Performance Indicators",
      g.create_kpi_cards metrics,
      "Key security metrics and performance indicators for the reporting period."⟩ : Step) ∈
      chartSteps g events phishing compliance metrics report_type := by
    simp [chartSteps]
  rcases assemble_cases
      (chartSteps g events phishing compliance metrics report_type) [] hT with
    ⟨l, hl, hne, hmem⟩ | ⟨l, e, hl, hne⟩
  · rw [show generate_charts g events phishing compliance metrics report_type =
        l from by rw [generate_charts, hl]; simp]
    refine ⟨fun _ => ?_, ?_, ?_⟩
    · exact hmem _ hkpi rfl
    · have : "Chart Generation Error" ∉ l.map Chart.title := by
        intro hmem2
        obtain ⟨c, hcl, hct⟩ := List.mem_map.mp hmem2
        exact hne c hcl hct
      simp [List.count_eq_zero.mpr this]
    · intro hmem2
      obtain ⟨c, hcl, hct⟩ := List.mem_map.mp hmem2
      exact absurd hct (hne c hcl)
  · rw [show generate_charts g events phishing compliance metrics report_type =
        l ++ [errChart e] from by rw [generate_charts, hl]; simp]
    have hcount : (l.map Chart.title).count "Chart Generation Error" = 0 := by
      refine List.count_eq_zero.mpr ?_
      intro hmem2
      obtain ⟨c, hcl, hct⟩ := List.mem_map.mp hmem2
      exact hne c hcl hct
    refine ⟨fun hno => ?_, ?_, fun _ => ⟨l, e, rfl, hne⟩⟩
    · exact absurd (by simp [errChart]) hno
    · simp [List.count_append, hcount, errChart]

theorem generate_charts_error_handling_witness :
    "Key Performance Indicators" ∈
      (generate_charts gOk [] [] [] (all_metrics [] [] [])
        "security_summary").map Chart.title :=
  (generate_charts_error_handling gOk [] [] [] (all_metrics [] [] [])
    "security_summary").1 (by decide)

/-- C1: evaluation of the code at the failing input.  With a non-empty
phishing dataset, a report type not containing "phishing" and the focus
area "Phishing Statistics" selected, the claim demands the "Phishing
Campaign Analysis" chart; the code instead tests
`"Phishing Statistics" in str(metrics)` — the metrics dict never contains
that string — and omits the chart. -/
theorem phishing_chart_ignores_focus_areas :
    get_phishing_data [c1PhishRow] "ytd" c1Today ≠ []
    ∧ containsSub (strLower "weekly_summary") "phishing" = false
    ∧ "Phishing Statistics" ∈ (["Phishing Statistics"] : List String)
    ∧ "Phishing Campaign Analysis" ∉
        (generate_report_charts [] [c1PhishRow] [] "weekly_summary" "ytd"
          ["Phishing Statistics"] c1Today gOk).map Chart.title := by
  refine ⟨by decide, by decide, by decide, by decide⟩

/-- C2: evaluation of the code at the failing input.  A request with an
empty required field makes the validation raise `HTTPException(400)`
inside the `try:` block, but the blanket `except Exception` clause
catches that very exception and re-raises it as a 500, so the client
receives HTTP 500, not 400 — for every possible downstream pipeline.
The pipeline is indeed never invoked. -/
theorem generate_report_missing_field_returns_500
    (pipeline : ReportRequest → Except PyExc ReportResponse) :
    generate_report_tryBlock pipeline reqMissingReportType =
      (.error (.httpException 400 "Please fill in all required fields."), false)
    ∧ generate_report_route pipeline reqMissingReportType = (500, false) :=
  ⟨rfl, rfl⟩

theorem generate_report_missing_field_returns_500_witness :
    generate_report_route (fun _ => .ok ⟨"success", "ok", none⟩)
      reqMissingReportType = (500, false) :=
  (generate_report_missing_field_returns_500
    (fun _ => .ok ⟨"success", "ok", none⟩)).2

theorem getD_append_self (l : List α) (a d : α) :
    (l ++ [a]).getD l.length d = a := by
  induction l with
  | nil => rfl
  | cons x t ih => simp [ih]

theorem getD_append_lt (l l2 : List α) (i : Nat) (d : α) (h : i < l.length) :
    (l ++ l2).getD i d = l.getD i d := by
  induction l generalizing i with
  | nil => simp at h
  | cons x t ih =>
    cases i with
    | zero => rfl
    | succ j =>
      simp only [List.cons_append, List.getD_cons_succ]
      exact ih j (by simpa using h)

theorem getD_set_ne (l : List α) (i j : Nat) (v : α) (d : α) (h : i ≠ j) :
    (l.set i v).getD j d = l.getD j d := by
  induction l generalizing i j with
  | nil => rfl
  | cons x t ih =>
    cases i with
    | zero =>
      cases j with
      | zero => omega
      | succ j2 => rfl
    | succ i2 =>
      cases j with
      | zero => rfl
      | succ j2 =>
        simp only [List.set_cons_succ, List.getD_cons_succ]
        exact ih i2 j2 (by omega)

/-- C9: a first load of a missing-from-cache dataset parses and caches
it and returns a fresh reference whose value is the parsed data; after
ANY mutation of that returned reference, a further load of the same name
still returns the original parsed data, at yet another fresh
reference — callers get copies, and mutating a copy never reaches the
cached original. -/
theorem load_data_isolation (files : String → Option GDF) (name : String)
    (raw : GDF) (s : LoaderState)
    (hmiss : s.cache.lookup name = none) (hfile : files name = some raw) :
    ∃ r1 s1, load_data files s name = .ok (r1, s1)
      ∧ readRef s1 r1 = parseDates raw
      ∧ ∀ v : GDF, ∃ r2 s3,
          load_data files (writeRef s1 r1 v) name = .ok (r2, s3)
          ∧ readRef s3 r2 = parseDates raw
          ∧ r2 ≠ r1 := by
  have hd0 : (s.heap ++ [parseDates raw]).getD s.heap.length ⟨[], []⟩ =
      parseDates raw := getD_append_self _ _ _
  have hchar : load_data files s name =
      .ok (s.heap.length + 1,
        ⟨(name, s.heap.length) :: s.cache,
         (s.heap ++ [parseDates raw]) ++
           [(s.heap ++ [parseDates raw]).getD s.heap.length ⟨[], []⟩]⟩) := by
    unfold load_data
    rw [hmiss, hfile]
    dsimp only [alloc, readRef]
    simp [List.length_append]
  rw [hd0] at hchar
  set df := parseDates raw with hdf
  refine ⟨s.heap.length + 1,
    ⟨(name, s.heap.length) :: s.cache, (s.heap ++ [df]) ++ [df]⟩,
    hchar, ?_, ?_⟩
  · show ((s.heap ++ [df]) ++ [df]).getD (s.heap.length + 1) ⟨[], []⟩ = df
    have : (s.heap ++ [df]).length = s.heap.length + 1 := by simp
    rw [← this]
    exact getD_append_self _ _ _
  · intro v
    have hlen2 : ((s.heap ++ [df]) ++ [df]).length = s.heap.length + 2 := by simp
    have hset : (((s.heap ++ [df]) ++ [df]).set (s.heap.length + 1) v).getD
        s.heap.length ⟨[], []⟩ = df := by
      rw [getD_set_ne _ _ _ _ _ (by omega)]
      rw [getD_append_lt _ _ _ _ (by simp)]
      exact hd0
    have hchar2 : load_data files
        (writeRef ⟨(name, s.heap.length) :: s.cache, (s.heap ++ [df]) ++ [df]⟩
          (s.heap.length + 1) v) name =
        .ok ((((s.heap ++ [df]) ++ [df]).set (s.heap.length + 1) v).length,
          ⟨(name, s.heap.length) :: s.cache,
           (((s.heap ++ [df]) ++ [df]).set (s.heap.length + 1) v) ++
             [(((s.heap ++ [df]) ++ [df]).set (s.heap.length + 1) v).getD
               s.heap.length ⟨[], []⟩]⟩) := by
      unfold load_data
      simp only [writeRef, List.lookup_cons]
      rw [show (name == name) = true from by simp]
      dsimp only [alloc, readRef]
    rw [hset] at hchar2
    refine ⟨(((s.heap ++ [df]) ++ [df]).set (s.heap.length + 1) v).length,
      _, hchar2, ?_, ?_⟩
    · show ((((s.heap ++ [df]) ++ [df]).set (s.heap.length + 1) v) ++
          [df]).getD
            ((((s.heap ++ [df]) ++ [df]).set (s.heap.length + 1) v).length)
            ⟨[], []⟩ = df
      exact getD_append_self _ _ _
    · rw [List.length_set, hlen2]
      omega

theorem load_data_isolation_witness :
    ∃ r1 s1,
      load_data (fun n => if n = "security_events.csv" then some c9File else none)
        ⟨[], []⟩ "security_events.csv" = .ok (r1, s1)
      ∧ readRef s1 r1 = parseDates c9File
      ∧ ∀ v : GDF, ∃ r2 s3,
          load_data
            (fun n => if n = "security_events.csv" then some c9File else none)
            (writeRef s1 r1 v) "security_events.csv" = .ok (r2, s3)
          ∧ readRef s3 r2 = parseDates c9File
          ∧ r2 ≠ r1 :=
  load_data_isolation
    (fun n => if n = "security_events.csv" then some c9File else none)
    "security_events.csv" c9File ⟨[], []⟩ rfl (by simp)

/-- C10: on every non-empty dataframe having the date column (and not
already carrying a "month" column), `get_trend_data` changes the
caller's dataframe object itself, extending its columns with "month";
the input object is left unmodified exactly when it is empty or lacks
the date column. -/
theorem get_trend_data_mutates (df : GDF) (metric dateCol : String)
    (hne : df.rows ≠ []) (hdc : df.cols.contains dateCol = true)
    (hm : df.cols.contains "month" = false) :
    (get_trend_data df metric dateCol).1.cols = df.cols ++ ["month"]
    ∧ (get_trend_data df metric dateCol).1 ≠ df
    ∧ ∀ df2 : GDF, (df2.rows.isEmpty || !(df2.cols.contains dateCol)) = true →
        (get_trend_data df2 metric dateCol).1 = df2 := by
  have hre : df.rows.isEmpty = false := by
    cases hdf : df.rows with
    | nil => exact absurd hdf hne
    | cons x t => rfl
  have hcond : (df.rows.isEmpty || !(df.cols.contains dateCol)) = false := by
    rw [hre, hdc]
    rfl
  have hcols : (get_trend_data df metric dateCol).1.cols = df.cols ++ ["month"] := by
    unfold get_trend_data
    rw [hcond]
    simp only [Bool.false_eq_true, if_false]
    unfold setColumn
    rw [hm]
    simp only [Bool.false_eq_true, if_false]
    split_ifs <;> rfl
  refine ⟨hcols, ?_, ?_⟩
  · intro heq
    have hlen := congrArg (fun x => x.cols.length) heq
    dsimp only at hlen
    rw [hcols] at hlen
    simp at hlen
  · intro df2 h2
    unfold get_trend_data
    rw [h2]
    rfl

theorem get_trend_data_mutates_witness :
    (get_trend_data c10df "impact_score" "date").1.cols =
      ["date", "impact_score", "month"]
    ∧ (get_trend_data c10df "impact_score" "date").1 ≠ c10df :=
  ⟨(get_trend_data_mutates c10df "impact_score" "date" (by decide) (by decide)
      (by decide)).1,
   (get_trend_data_mutates c10df "impact_score" "date" (by decide) (by decide)
      (by decide)).2.1⟩

end ExecSummary
